import Mathlib

/-!
Shallow embedding of the ParkHub server core (parkhub-server/src/api.rs,
parkhub-server/src/db.rs, parkhub-common/src/models.rs) and proofs about it.

Modelling conventions:
* UTC instants (`chrono::DateTime<Utc>`) are integers (`Int`), in seconds.
* 128-bit opaque identifiers (`uuid::Uuid`) are their string renderings
  (the code only ever compares them for equality and converts them with
  `to_string`), so they are modelled as `String`.
* Monetary amounts computed by the code in `f64` are modelled in exact
  rational arithmetic (`Rat`); the formulas are translated verbatim.
* Each redb table (string key to value, last insert wins) is an
  association list with insert-overwrites semantics (`KvTable`).
* `async` handlers are pure state-transforming functions; the coordinator
  `RwLock` write lock means each handler body is one atomic step of the
  transition system, which is how the step relation below is set up.
* Calls to `Utc::now()` inside a single handler body are modelled by one
  `now` parameter, and calls to `Uuid::new_v4()` by explicit fresh-value
  parameters, since both are nondeterministic inputs of the handler.
-/

namespace ParkHub

/-! ## Key-value tables (redb tables, db.rs lines 29-38) -/

/-- A redb table `&str -> V`: an association list, most recent insert first. -/
abbrev KvTable (V : Type) : Type := List (String × V)

namespace KvTable

/-- The empty table. -/
def empty {V : Type} : KvTable V := []

/-- Point lookup (`table.get(key)`). -/
def find? {V : Type} : KvTable V → String → Option V
  | [], _ => none
  | (k, v) :: t, key => if key = k then some v else find? t key

/-- Insert, overwriting any previous value under the key
(`table.insert(key, value)` in redb replaces the old value). -/
def insert {V : Type} (t : KvTable V) (key : String) (v : V) : KvTable V :=
  (key, v) :: t.filter (fun p => p.1 ≠ key)

/-- Remove a key (`table.remove(key)`). -/
def remove {V : Type} (t : KvTable V) (key : String) : KvTable V :=
  t.filter (fun p => p.1 ≠ key)

end KvTable

/-! ## Crypto layer (db.rs, `Encryptor`, lines 120-161)

The AES-256-GCM cipher and the PBKDF2 key derivation live in external
crates (`aes_gcm`, `pbkdf2`); the repository's own code is the nonce
handling around them.  The cipher is therefore a parameter satisfying the
authenticated-encryption contract, and the theorems are about the
repository's framing logic. -/

/-- Bytes are lists of naturals (byte values). -/
abbrev Bytes : Type := List Nat

/-- An authenticated cipher as exposed by `aes_gcm::Aes256Gcm`: encryption
with an explicit nonce, and decryption that can fail (tag verification). -/
structure AeadCipher where
  enc : Bytes → Bytes → Bytes
  dec : Bytes → Bytes → Option Bytes

/-- The cipher satisfies the AEAD round-trip contract: decrypting with the
same key and nonce recovers the plaintext. -/
def AeadCipher.RoundTrip (c : AeadCipher) : Prop :=
  ∀ nonce data, c.dec nonce (c.enc nonce data) = some data

/-- Two ciphers reject each other's output: decryption under a different
key fails tag verification (the AEAD authentication contract, which holds
for AES-GCM keys derived from distinct passphrases via PBKDF2). -/
def AeadCipher.Rejects (c' c : AeadCipher) : Prop :=
  ∀ nonce data, c'.dec nonce (c.enc nonce data) = none

/-- Embeds `Encryptor::encrypt` (db.rs lines 133-147): encrypt `data` under a
fresh 96-bit (12-byte) nonce and prepend the nonce to the ciphertext. -/
def Encryptor.encrypt (c : AeadCipher) (nonce : Bytes) (data : Bytes) : Bytes :=
  nonce ++ c.enc nonce data

/-- Embeds `Encryptor::decrypt` (db.rs lines 149-160): reject inputs shorter than
12 bytes, split nonce from ciphertext, and decrypt. -/
def Encryptor.decrypt (c : AeadCipher) (data : Bytes) : Option Bytes :=
  if data.length < 12 then none
  else c.dec (data.take 12) (data.drop 12)

/-! ## Data model (parkhub-common/src/models.rs)

Instants are `Int` seconds; `Uuid` is `String`; the `f64`/`f32` monetary
and geometric quantities are exact rationals. -/

/-- Embeds `UserRole` (models.rs lines 34-40). -/
inductive UserRole where
  | User | Premium | Admin | SuperAdmin
deriving DecidableEq, Repr

/-- Embeds `UserPreferences` (models.rs lines 44-51). -/
structure UserPreferences where
  default_duration_minutes : Option Int
  favorite_slots : List String
  notifications_enabled : Bool
  email_reminders : Bool
  language : String
  theme : String
deriving DecidableEq, Repr

/-- Embeds `User` (models.rs lines 15-29). -/
structure User where
  id : String
  username : String
  email : String
  password_hash : String
  name : String
  picture : Option String
  phone : Option String
  role : UserRole
  created_at : Int
  updated_at : Int
  last_login : Option Int
  preferences : UserPreferences
  is_active : Bool
deriving DecidableEq, Repr

/-- Embeds `SlotType` (models.rs lines 117-127). -/
inductive SlotType where
  | Standard | Compact | Large | Handicap | Electric | Motorcycle | Reserved | Vip
deriving DecidableEq, Repr

/-- Embeds `SlotStatus` (models.rs lines 132-139). -/
inductive SlotStatus where
  | Available | Occupied | Reserved | Maintenance | Disabled
deriving DecidableEq, Repr

/-- Embeds `SlotBookingInfo` (models.rs lines 143-150). -/
structure SlotBookingInfo where
  booking_id : String
  user_id : String
  license_plate : String
  start_time : Int
  end_time : Int
  is_own_booking : Bool
deriving DecidableEq, Repr

/-- Embeds `SlotFeature` (models.rs lines 155-164). -/
inductive SlotFeature where
  | NearExit | NearElevator | NearStairs | Covered | SecurityCamera | WellLit
  | WideLane | ChargingStation
deriving DecidableEq, Repr

/-- Embeds `SlotPosition` (models.rs lines 168-174); the `f32` geometry is exact. -/
structure SlotPosition where
  x : Rat
  y : Rat
  width : Rat
  height : Rat
  rotation : Rat
deriving DecidableEq, Repr

/-- Embeds `ParkingSlot` (models.rs lines 100-112). -/
structure ParkingSlot where
  id : String
  lot_id : String
  floor_id : String
  slot_number : Int
  row : Int
  column : Int
  slot_type : SlotType
  status : SlotStatus
  current_booking : Option SlotBookingInfo
  features : List SlotFeature
  position : SlotPosition
deriving DecidableEq, Repr

/-- Embeds `LotStatus` (models.rs lines 179-185). -/
inductive LotStatus where
  | Open | Closed | Full | Maintenance
deriving DecidableEq, Repr

/-- Embeds `PricingRate` (models.rs lines 202-206). -/
structure PricingRate where
  duration_minutes : Int
  price : Rat
  label : String
deriving DecidableEq, Repr

/-- Embeds `PricingInfo` (models.rs lines 193-198). -/
structure PricingInfo where
  currency : String
  rates : List PricingRate
  daily_max : Option Rat
  monthly_pass : Option Rat
deriving DecidableEq, Repr

/-- Embeds `DayHours` (models.rs lines 223-226); the source fields are
`open`/`close`, renamed here because `open` is a Lean keyword. -/
structure DayHours where
  opens : String
  closes : String
deriving DecidableEq, Repr

/-- Embeds `OperatingHours` (models.rs lines 210-219). -/
structure OperatingHours where
  is_24h : Bool
  monday : Option DayHours
  tuesday : Option DayHours
  wednesday : Option DayHours
  thursday : Option DayHours
  friday : Option DayHours
  saturday : Option DayHours
  sunday : Option DayHours
deriving DecidableEq, Repr

/-- Embeds `ParkingFloor` (models.rs lines 88-96). -/
structure ParkingFloor where
  id : String
  lot_id : String
  name : String
  floor_number : Int
  total_slots : Int
  available_slots : Int
  slots : List ParkingSlot
deriving DecidableEq, Repr

/-- Embeds `ParkingLot` (models.rs lines 68-84). -/
structure ParkingLot where
  id : String
  name : String
  address : String
  latitude : Rat
  longitude : Rat
  total_slots : Int
  available_slots : Int
  floors : List ParkingFloor
  amenities : List String
  pricing : PricingInfo
  operating_hours : OperatingHours
  images : List String
  status : LotStatus
  created_at : Int
  updated_at : Int
deriving DecidableEq, Repr

/-- Embeds `BookingStatus` (models.rs lines 257-266). -/
inductive BookingStatus where
  | Pending | Confirmed | Active | Completed | Cancelled | Expired | NoShow
deriving DecidableEq, Repr

/-- Embeds `PaymentStatus` (models.rs lines 283-290). -/
inductive PaymentStatus where
  | Pending | Paid | Failed | Refunded | PartialRefund
deriving DecidableEq, Repr

/-- Embeds `VehicleType` (models.rs lines 309-317). -/
inductive VehicleType where
  | Car | Suv | Motorcycle | Truck | Van | Electric
deriving DecidableEq, Repr

/-- Embeds `Vehicle` (models.rs lines 294-304). -/
structure Vehicle where
  id : String
  user_id : String
  license_plate : String
  make : Option String
  model : Option String
  color : Option String
  vehicle_type : VehicleType
  is_default : Bool
  created_at : Int
deriving DecidableEq, Repr

/-- Embeds `BookingPricing` (models.rs lines 270-278); the `f64` amounts are exact. -/
structure BookingPricing where
  base_price : Rat
  discount : Rat
  tax : Rat
  total : Rat
  currency : String
  payment_status : PaymentStatus
  payment_method : Option String
deriving DecidableEq, Repr

/-- Embeds `Booking` (models.rs lines 234-252). -/
structure Booking where
  id : String
  user_id : String
  lot_id : String
  slot_id : String
  slot_number : Int
  floor_name : String
  vehicle : Vehicle
  start_time : Int
  end_time : Int
  status : BookingStatus
  pricing : BookingPricing
  created_at : Int
  updated_at : Int
  check_in_time : Option Int
  check_out_time : Option Int
  qr_code : Option String
  notes : Option String
deriving DecidableEq, Repr

/-- Embeds `CreateBookingRequest` (models.rs lines 321-329). -/
structure CreateBookingRequest where
  lot_id : String
  slot_id : String
  start_time : Int
  duration_minutes : Int
  vehicle_id : String
  license_plate : String
  notes : Option String
deriving DecidableEq, Repr

/-! ## Storage engine state (db.rs)

Only the tables touched by the verified operations are modelled.  The
`slots_by_lot` mirror is kept structurally here; its serialized-bytes form
is treated separately for the index-consistency claim. -/

/-- The booking-coordinator-relevant slice of the redb database. -/
structure ServerDb where
  bookings : KvTable Booking
  parking_slots : KvTable ParkingSlot
  slots_by_lot : KvTable ParkingSlot
  parking_lots : KvTable ParkingLot
  vehicles : KvTable Vehicle
deriving DecidableEq, Repr

namespace ServerDb

/-- Embeds `Database::get_parking_slot` (db.rs lines 595-604). -/
def get_parking_slot (db : ServerDb) (id : String) : Option ParkingSlot :=
  db.parking_slots.find? id

/-- Embeds `Database::save_parking_slot` (db.rs lines 572-592): one write
transaction updating the primary row and the `"<lot_id>:<slot_id>"` row. -/
def save_parking_slot (db : ServerDb) (slot : ParkingSlot) : ServerDb :=
  { db with
    parking_slots := db.parking_slots.insert slot.id slot
    slots_by_lot := db.slots_by_lot.insert (slot.lot_id ++ ":" ++ slot.id) slot }

/-- Embeds `Database::get_booking` (db.rs lines 661-670). -/
def get_booking (db : ServerDb) (id : String) : Option Booking :=
  db.bookings.find? id

/-- Embeds `Database::save_booking` (db.rs lines 645-658). -/
def save_booking (db : ServerDb) (booking : Booking) : ServerDb :=
  { db with bookings := db.bookings.insert booking.id booking }

/-- Embeds `Database::get_vehicle` (db.rs lines 732-741). -/
def get_vehicle (db : ServerDb) (id : String) : Option Vehicle :=
  db.vehicles.find? id

/-- Embeds `Database::get_parking_lot` (db.rs lines 526-535). -/
def get_parking_lot (db : ServerDb) (id : String) : Option ParkingLot :=
  db.parking_lots.find? id

end ServerDb

/-! ## Booking coordinator (api.rs, `create_booking` lines 1032-1234 and
`cancel_booking` lines 1267-1345)

Each handler holds the coordinator write lock for its whole body, so it is
modelled as one atomic function from state to state.  The in-memory store
never fails, so the `Err`/`SERVER_ERROR` and `SLOT_UPDATE_FAILED` branches
of the source (reachable only through storage faults) do not appear.  The
fire-and-forget confirmation e-mail reads state but does not change it. -/

/-- Outcome of `create_booking`: HTTP 201 with the booking, or an error
status with its wire code. -/
inductive CreateBookingResult where
  | created (booking : Booking)
  | err (status : Nat) (code : String)
deriving DecidableEq, Repr

/-- Outcome of `cancel_booking`. -/
inductive CancelBookingResult where
  | ok
  | err (status : Nat) (code : String)
deriving DecidableEq, Repr

/-- The tail of `create_booking` after the slot and vehicle checks
(api.rs lines 1105-1233): duration and start-time validation, pricing,
floor-name resolution, booking write, slot flip to `Reserved`. -/
def create_booking_go (db : ServerDb) (auth_user_id : String)
    (req : CreateBookingRequest) (now : Int) (fresh_booking_id fresh_qr : String)
    (slot : ParkingSlot) (vehicle : Vehicle) : CreateBookingResult × ServerDb :=
  if req.duration_minutes ≤ 0 then
    (.err 400 "INVALID_INPUT", db)
  else if req.start_time ≤ now then
    (.err 400 "INVALID_BOOKING_TIME", db)
  else
    let end_time := req.start_time + 60 * req.duration_minutes
    let base_price : Rat := ((req.duration_minutes : Rat) / 60) * 2
    let tax : Rat := base_price * (1 / 10)
    let total : Rat := base_price + tax
    let floor_name :=
      match db.get_parking_lot req.lot_id with
      | some lot =>
        match lot.floors.find? (fun f => f.id == slot.floor_id) with
        | some f => f.name
        | none => "Level 1"
      | none => "Level 1"
    let booking : Booking :=
      { id := fresh_booking_id
        user_id := auth_user_id
        lot_id := req.lot_id
        slot_id := req.slot_id
        slot_number := slot.slot_number
        floor_name := floor_name
        vehicle := vehicle
        start_time := req.start_time
        end_time := end_time
        status := .Confirmed
        pricing :=
          { base_price := base_price
            discount := 0
            tax := tax
            total := total
            currency := "EUR"
            payment_status := .Pending
            payment_method := none }
        created_at := now
        updated_at := now
        check_in_time := none
        check_out_time := none
        qr_code := some fresh_qr
        notes := req.notes }
    let db1 := db.save_booking booking
    let updated_slot := { slot with status := SlotStatus.Reserved }
    let db2 := db1.save_parking_slot updated_slot
    (.created booking, db2)

/-- The ephemeral vehicle snapshot built when `vehicle_id` resolves to no
stored vehicle (api.rs lines 1092-1102). -/
def ephemeral_vehicle (auth_user_id : String) (req : CreateBookingRequest)
    (now : Int) : Vehicle :=
  { id := req.vehicle_id
    user_id := auth_user_id
    license_plate := req.license_plate
    make := none
    model := none
    color := none
    vehicle_type := .Car
    is_default := false
    created_at := now }

/-- Embeds `create_booking` (api.rs lines 1032-1234). -/
def create_booking (db : ServerDb) (auth_user_id : String)
    (req : CreateBookingRequest) (now : Int) (fresh_booking_id fresh_qr : String) :
    CreateBookingResult × ServerDb :=
  match db.get_parking_slot req.slot_id with
  | none => (.err 404 "NOT_FOUND", db)
  | some slot =>
    if slot.status ≠ SlotStatus.Available then
      (.err 409 "SLOT_UNAVAILABLE", db)
    else
      match db.get_vehicle req.vehicle_id with
      | some v =>
        if v.user_id ≠ auth_user_id then
          (.err 403 "FORBIDDEN", db)
        else
          create_booking_go db auth_user_id req now fresh_booking_id fresh_qr slot v
      | none =>
        create_booking_go db auth_user_id req now fresh_booking_id fresh_qr slot
          (ephemeral_vehicle auth_user_id req now)

/-- Embeds `cancel_booking` (api.rs lines 1267-1345). -/
def cancel_booking (db : ServerDb) (auth_user_id : String) (id : String)
    (now : Int) : CancelBookingResult × ServerDb :=
  match db.get_booking id with
  | none => (.err 404 "NOT_FOUND", db)
  | some booking =>
    if booking.user_id ≠ auth_user_id then
      (.err 403 "FORBIDDEN", db)
    else if booking.status = BookingStatus.Cancelled then
      (.err 409 "ALREADY_CANCELLED", db)
    else
      let updated_booking := { booking with
        status := BookingStatus.Cancelled, updated_at := now }
      let db1 := db.save_booking updated_booking
      let db2 :=
        match db1.get_parking_slot booking.slot_id with
        | some slot =>
          if slot.status = SlotStatus.Reserved then
            db1.save_parking_slot { slot with status := SlotStatus.Available }
          else db1
        | none => db1
      (.ok, db2)

/-- HTTP status of a `create_booking` outcome (`StatusCode::CREATED` on
success). -/
def CreateBookingResult.http_status : CreateBookingResult → Nat
  | .created _ => 201
  | .err s _ => s

/-! ## Concrete fixtures used by witness theorems -/

/-- A concrete slot geometry. -/
def exPosition : SlotPosition :=
  { x := 0, y := 0, width := 1, height := 1, rotation := 0 }

/-- A concrete available slot in lot `l1`. -/
def exSlot : ParkingSlot :=
  { id := "s1", lot_id := "l1", floor_id := "f1", slot_number := 1, row := 0,
    column := 0, slot_type := .Standard, status := .Available,
    current_booking := none, features := [], position := exPosition }

/-- A database holding only `exSlot`. -/
def exDb : ServerDb :=
  { bookings := [], parking_slots := [("s1", exSlot)],
    slots_by_lot := [("l1:s1", exSlot)], parking_lots := [], vehicles := [] }

/-- A valid booking request for `exSlot`: one hour starting at instant 100. -/
def exReq : CreateBookingRequest :=
  { lot_id := "l1", slot_id := "s1", start_time := 100, duration_minutes := 60,
    vehicle_id := "v1", license_plate := "AB-123", notes := none }

/-- Helper for `starts_with`: does the first character list lead the
second? -/
def chars_lead : List Char → List Char → Bool
  | [], _ => true
  | _ :: _, [] => false
  | a :: ps, b :: ss => a == b && chars_lead ps ss

/-- Rust `str::starts_with` modelled as a character-level test (for valid
UTF-8 and a whole-string pattern, byte-prefix and character-prefix
coincide). -/
def starts_with (s pat : String) : Bool :=
  chars_lead pat.data s.data

/-! ## Sessions and the authentication layer (db.rs lines 68-99 and 339-384,
api.rs lines 242-285 and 372-456) -/

/-- Embeds `Session` (db.rs lines 70-77). -/
structure Session where
  user_id : String
  username : String
  role : String
  refresh_token : String
  created_at : Int
  expires_at : Int
deriving DecidableEq, Repr

/-- Embeds `Session::is_expired` (db.rs lines 96-98): strictly before `now`. -/
def Session.is_expired (s : Session) (now : Int) : Bool :=
  s.expires_at < now

/-- The session constructed at login/refresh/register.  `Session::new`
(db.rs lines 81-93) leaves `username`/`role` for the caller and draws a
fresh `rt_`-prefixed refresh token; the api.rs call sites supply username
and role, so the constructor is modelled with those call-site arguments and
the random token as an explicit parameter. -/
def Session.new (user_id : String) (duration_hours : Int)
    (username role fresh_refresh : String) (now : Int) : Session :=
  { user_id := user_id, username := username, role := role,
    refresh_token := "rt_" ++ fresh_refresh, created_at := now,
    expires_at := now + 3600 * duration_hours }

/-- The authentication-relevant slice of the redb database. -/
structure AuthDb where
  users : KvTable User
  users_by_username : KvTable String
  users_by_email : KvTable String
  sessions : KvTable Session
  settings : KvTable String
deriving DecidableEq, Repr

namespace AuthDb

/-- Embeds `Database::get_session` (db.rs lines 354-371): lookup that filters out
sessions whose `expires_at` is strictly before `now`. -/
def get_session (db : AuthDb) (token : String) (now : Int) : Option Session :=
  match db.sessions.find? token with
  | some s => if s.expires_at < now then none else some s
  | none => none

/-- Embeds `Database::save_session` (db.rs lines 339-351). -/
def save_session (db : AuthDb) (token : String) (s : Session) : AuthDb :=
  { db with sessions := db.sessions.insert token s }

/-- Embeds `Database::get_user` (db.rs lines 415-424). -/
def get_user (db : AuthDb) (id : String) : Option User :=
  db.users.find? id

/-- Embeds `Database::get_user_by_username` (db.rs lines 427-444): index lookup
then primary lookup. -/
def get_user_by_username (db : AuthDb) (username : String) : Option User :=
  match db.users_by_username.find? username with
  | some user_id => db.users.find? user_id
  | none => none

/-- Embeds `Database::get_user_by_email` (db.rs lines 447-464). -/
def get_user_by_email (db : AuthDb) (email : String) : Option User :=
  match db.users_by_email.find? email with
  | some user_id => db.users.find? user_id
  | none => none

/-- Embeds `Database::save_user` (db.rs lines 391-412): primary row plus username
and email indices, in one write transaction. -/
def save_user (db : AuthDb) (user : User) : AuthDb :=
  { db with
    users := db.users.insert user.id user
    users_by_username := db.users_by_username.insert user.username user.id
    users_by_email := db.users_by_email.insert user.email user.id }

/-- Embeds `Database::get_setting` (db.rs lines 765-774). -/
def get_setting (db : AuthDb) (key : String) : Option String :=
  db.settings.find? key

/-- Embeds `Database::set_setting` (db.rs lines 777-786). -/
def set_setting (db : AuthDb) (key value : String) : AuthDb :=
  { db with settings := db.settings.insert key value }

end AuthDb

/-- Outcome of the auth middleware: either the request proceeds to the
handler carrying the authenticated user id, or it is rejected with
HTTP 401 and the handler is never invoked. -/
inductive AuthResult where
  | ok (user_id : String)
  | unauthorized (message : String)
deriving DecidableEq, Repr

/-- Embeds `auth_middleware` (api.rs lines 242-285): extract the bearer token,
validate the session, reject with 401 UNAUTHORIZED otherwise. -/
def auth_middleware (db : AuthDb) (auth_header : Option String) (now : Int) :
    AuthResult :=
  match auth_header with
  | some h =>
    if starts_with h "Bearer " then
      let token := String.mk (h.data.drop 7)
      match db.get_session token now with
      | some s =>
        if !(s.is_expired now) then .ok s.user_id
        else .unauthorized "Invalid or expired token"
      | none => .unauthorized "Invalid or expired token"
    else .unauthorized "Missing or invalid authorization header"
  | none => .unauthorized "Missing or invalid authorization header"

/-- Embeds `LoginRequest` (parkhub-common). -/
structure LoginRequest where
  username : String
  password : String
deriving DecidableEq, Repr

/-- Embeds `AuthTokens` (models.rs lines 55-60). -/
structure AuthTokens where
  access_token : String
  refresh_token : String
  expires_at : Int
  token_type : String
deriving DecidableEq, Repr

/-- Embeds `LoginResponse`: the user together with the issued tokens. -/
structure LoginResponse where
  user : User
  tokens : AuthTokens
deriving DecidableEq, Repr

/-- Outcome of `login`. -/
inductive LoginResult where
  | ok (response : LoginResponse)
  | err (status : Nat) (code : String)
deriving DecidableEq, Repr

/-- Embeds `format!("{:?}", user.role).to_lowercase()` (api.rs line 428). -/
def UserRole.debug_lower : UserRole → String
  | .User => "user"
  | .Premium => "premium"
  | .Admin => "admin"
  | .SuperAdmin => "superadmin"

/-- Embeds `login` (api.rs lines 372-456).  Password verification (Argon2, an
external crate) is a parameter `verify`; the fresh access token and the
random part of the refresh token are explicit parameters. -/
def login (verify : String → String → Bool) (db : AuthDb) (req : LoginRequest)
    (now : Int) (fresh_access_token fresh_refresh : String) :
    LoginResult × AuthDb :=
  let found : Option User :=
    match db.get_user_by_username req.username with
    | some u => some u
    | none => db.get_user_by_email req.username
  match found with
  | none => (.err 401 "INVALID_CREDENTIALS", db)
  | some user =>
    if !(verify req.password user.password_hash) then
      (.err 401 "INVALID_CREDENTIALS", db)
    else if !user.is_active then
      (.err 403 "ACCOUNT_DISABLED", db)
    else
      let session :=
        Session.new user.id 24 user.username user.role.debug_lower fresh_refresh now
      let db1 := db.save_session fresh_access_token session
      let response_user := { user with password_hash := "" }
      (.ok
        { user := response_user
          tokens :=
            { access_token := fresh_access_token
              refresh_token := session.refresh_token
              expires_at := session.expires_at
              token_type := "Bearer" } }, db1)

/-! ## Password reset (api.rs lines 630-835) -/

/-- Embeds `PasswordResetToken` (api.rs lines 648-652): the JSON-serialized
payload stored under settings key `pwreset:<token>`. -/
structure ResetTokenData where
  user_id : String
  expires_at : Int
deriving DecidableEq, Repr

/-- Outcome of `reset_password`. -/
inductive ResetPasswordResult where
  | ok
  | err (status : Nat) (code : String)
deriving DecidableEq, Repr

/-- Embeds `reset_password` (api.rs lines 737-835).  `dec` models
`serde_json::from_str::<PasswordResetToken>` and `hash` models
`hash_password_simple` (Argon2, external crate). -/
def reset_password (dec : String → Option ResetTokenData)
    (hash : String → String) (db : AuthDb) (token password : String)
    (now : Int) : ResetPasswordResult × AuthDb :=
  let settings_key := "pwreset:" ++ token
  match db.get_setting settings_key with
  | none => (.err 400 "INVALID_TOKEN", db)
  | some token_json =>
    match dec token_json with
    | none => (.err 500 "SERVER_ERROR", db)
    | some token_data =>
      if token_data.expires_at < now then
        (.err 400 "TOKEN_EXPIRED", db.set_setting settings_key "")
      else if password.length < 8 then
        (.err 400 "INVALID_PASSWORD", db)
      else
        match db.get_user token_data.user_id with
        | none => (.err 400 "INVALID_TOKEN", db)
        | some user =>
          let user' := { user with password_hash := hash password, updated_at := now }
          let db1 := db.save_user user'
          let db2 := db1.set_setting settings_key ""
          (.ok, db2)

/-! ## Handshake (api.rs lines 318-342) -/

/-- Error payload of the wire envelope. -/
structure ErrorInfo where
  code : String
  message : String
deriving DecidableEq, Repr

/-- Modelled from the spec: the uniform response envelope
`{success, data?, error?}` of parkhub-common (its lib.rs is not under
src/; only api.rs call sites of `ApiResponse::success` / `::error` are). -/
structure ApiResponse (α : Type) where
  success : Bool
  data : Option α
  error : Option ErrorInfo
deriving DecidableEq, Repr

/-- Embeds `ApiResponse::success` constructor (modelled from the spec envelope). -/
def ApiResponse.mk_success {α : Type} (d : α) : ApiResponse α :=
  { success := true, data := some d, error := none }

/-- Embeds `ApiResponse::error` constructor (modelled from the spec envelope). -/
def ApiResponse.mk_error {α : Type} (code message : String) : ApiResponse α :=
  { success := false, data := none, error := some { code := code, message := message } }

/-- Embeds `HandshakeRequest` (parkhub-common). -/
structure HandshakeRequest where
  client_version : String
  protocol_version : String
deriving DecidableEq, Repr

/-- Embeds `HandshakeResponse` (parkhub-common). -/
structure HandshakeResponse where
  server_name : String
  server_version : String
  protocol_version : String
  requires_auth : Bool
  certificate_fingerprint : String
deriving DecidableEq, Repr

/-- Modelled from the spec: the server's protocol version constant
(declared in parkhub-common, not under src/).  Its concrete value is
immaterial to the handshake contract, which only compares for byte
equality. -/
def PROTOCOL_VERSION : String := "1.0.0"

/-- Modelled from the spec: `env!("CARGO_PKG_VERSION")` (the crate
manifest is not under src/); its value is immaterial to the claims. -/
def CARGO_PKG_VERSION : String := "0.1.0"

/-- Embeds `handshake` (api.rs lines 318-342): the handler returns a bare
`Json<ApiResponse<HandshakeResponse>>`, so the HTTP status is always 200;
protocol mismatch is carried as an error envelope. -/
def handshake (server_name : String) (req : HandshakeRequest) :
    Nat × ApiResponse HandshakeResponse :=
  if req.protocol_version ≠ PROTOCOL_VERSION then
    (200, .mk_error "PROTOCOL_MISMATCH"
      ("Protocol version mismatch: server=" ++ PROTOCOL_VERSION ++
        ", client=" ++ req.protocol_version))
  else
    (200, .mk_success
      { server_name := server_name
        server_version := CARGO_PKG_VERSION
        protocol_version := PROTOCOL_VERSION
        requires_auth := true
        certificate_fingerprint := "" })

/-! ## Byte-level slot storage (db.rs lines 572-622)

For the index-consistency claim the two slot tables are modelled at the
level the code works at: serialized byte blobs, with the serde codec (and
optional encryption layer) as parameters. -/

/-- The two slot tables holding serialized blobs. -/
structure SlotStore where
  parking_slots : KvTable Bytes
  slots_by_lot : KvTable Bytes
deriving DecidableEq, Repr

/-- Embeds `Database::save_parking_slot` (db.rs lines 572-592) at byte level: one
write transaction inserting the same serialized blob under the primary key
and under `"<lot_id>:<slot_id>"`. -/
def SlotStore.save_parking_slot (ser : ParkingSlot → Bytes) (st : SlotStore)
    (slot : ParkingSlot) : SlotStore :=
  { parking_slots := st.parking_slots.insert slot.id (ser slot)
    slots_by_lot := st.slots_by_lot.insert (slot.lot_id ++ ":" ++ slot.id) (ser slot) }

/-- Embeds `Database::list_slots_by_lot` (db.rs lines 607-622): scan
`slots_by_lot`, keep keys starting with `"<lot_id>:"`, deserialize each;
a failing deserialization aborts the whole call (the `?` in the loop). -/
def SlotStore.list_slots_by_lot (dec : Bytes → Option ParkingSlot)
    (st : SlotStore) (lot_id : String) : Option (List ParkingSlot) :=
  (st.slots_by_lot.filter (fun p => starts_with p.1 (lot_id ++ ":"))).mapM
    (fun p => dec p.2)

/-! ## The booking transition system and its invariants (for the
reachability claim) -/

/-- One atomic booking-coordinator step: a `create_booking` or
`cancel_booking` handler body executed under the coordinator write lock,
with arbitrary caller, request, clock and fresh identifiers. -/
inductive Step : ServerDb → ServerDb → Prop where
  | create (db : ServerDb) (uid : String) (req : CreateBookingRequest)
      (now : Int) (bid qr : String) :
      Step db (create_booking db uid req now bid qr).2
  | cancel (db : ServerDb) (uid id : String) (now : Int) :
      Step db (cancel_booking db uid id now).2

/-- States reachable by booking-coordinator operations. -/
def Reachable : ServerDb → ServerDb → Prop :=
  Relation.ReflTransGen Step

/-- Active booking statuses per the spec: Pending, Confirmed or Active. -/
def BookingStatus.is_active : BookingStatus → Bool
  | .Pending => true
  | .Confirmed => true
  | .Active => true
  | _ => false

/-- Two bookings have overlapping time ranges. -/
def overlaps (b1 b2 : Booking) : Prop :=
  b1.start_time < b2.end_time ∧ b2.start_time < b1.end_time

/-- The claimed invariant: no two distinct active bookings share a slot
with overlapping time ranges. -/
def NoActiveOverlap (db : ServerDb) : Prop :=
  ∀ p1 ∈ db.bookings, ∀ p2 ∈ db.bookings,
    p1.1 ≠ p2.1 → (p1.2 : Booking).status.is_active = true →
    (p2.2 : Booking).status.is_active = true →
    p1.2.slot_id = p2.2.slot_id → ¬ overlaps p1.2 p2.2

/-- The spec's §3 cross-entity invariants on bookings and slots: no two
active bookings overlap on a slot; a Reserved slot is covered by exactly
one active booking; Maintenance/Disabled slots have no active bookings. -/
def SpecConsistent (db : ServerDb) : Prop :=
  NoActiveOverlap db ∧
  (∀ p ∈ db.parking_slots, (p.2 : ParkingSlot).status = .Reserved →
    (db.bookings.filter (fun q =>
      q.2.status.is_active && (q.2.slot_id == (p.2 : ParkingSlot).id))).length = 1) ∧
  (∀ p ∈ db.parking_slots,
    ((p.2 : ParkingSlot).status = .Maintenance ∨ (p.2 : ParkingSlot).status = .Disabled) →
    ∀ q ∈ db.bookings, (q.2 : Booking).slot_id = (p.2 : ParkingSlot).id →
      (q.2 : Booking).status.is_active = false)

/-- Keys of the bookings and slots tables agree with the stored records'
ids (every write goes through `save_booking` / `save_parking_slot`, which
key by the record id). -/
def WfDb (db : ServerDb) : Prop :=
  (∀ p ∈ db.bookings, (p.2 : Booking).id = p.1) ∧
  (∀ p ∈ db.parking_slots, (p.2 : ParkingSlot).id = p.1)

/-- The inductive invariant actually preserved by the coordinator: keys
are well-formed, every booking is Confirmed or Cancelled, at most one
Confirmed booking per slot, and the slot of a Confirmed booking is never
Available. -/
def CoordInv (db : ServerDb) : Prop :=
  WfDb db ∧
  (∀ p ∈ db.bookings,
    (p.2 : Booking).status = .Confirmed ∨ (p.2 : Booking).status = .Cancelled) ∧
  (∀ p1 ∈ db.bookings, ∀ p2 ∈ db.bookings, p1.1 ≠ p2.1 →
    (p1.2 : Booking).status = .Confirmed → (p2.2 : Booking).status = .Confirmed →
    p1.2.slot_id ≠ p2.2.slot_id) ∧
  (∀ p ∈ db.bookings, (p.2 : Booking).status = .Confirmed →
    ∀ s, db.get_parking_slot (p.2 : Booking).slot_id = some s →
      s.status ≠ SlotStatus.Available)

/-! ## Further concrete fixtures for witnesses and counterexamples -/

/-- A concrete vehicle owned by `u1`. -/
def exVehicle : Vehicle :=
  { id := "v0", user_id := "u1", license_plate := "AB-1", make := none,
    model := none, color := none, vehicle_type := .Car, is_default := false,
    created_at := 0 }

/-- A concrete pricing record (one hour at 2 EUR plus 10% tax). -/
def exPricing : BookingPricing :=
  { base_price := 2, discount := 0, tax := 1 / 5, total := 11 / 5,
    currency := "EUR", payment_status := .Pending, payment_method := none }

/-- The fixture `exSlot` marked Reserved. -/
def exSlotReserved : ParkingSlot :=
  { exSlot with status := .Reserved }

/-- A Confirmed booking of `u1` on slot `s1`, 100..200. -/
def exBookingConfirmed : Booking :=
  { id := "b1", user_id := "u1", lot_id := "l1", slot_id := "s1",
    slot_number := 1, floor_name := "Level 1", vehicle := exVehicle,
    start_time := 100, end_time := 200, status := .Confirmed,
    pricing := exPricing, created_at := 0, updated_at := 0,
    check_in_time := none, check_out_time := none, qr_code := none,
    notes := none }

/-- A Completed booking of `u1` on the same slot, 0..50. -/
def exBookingCompleted : Booking :=
  { exBookingConfirmed with
    id := "b2", start_time := 0, end_time := 50, status := .Completed }

/-- Initial state for the reachability counterexample: a Reserved slot
covered by one Confirmed booking, plus an old Completed booking on the
same slot.  This satisfies every §3 cross-entity invariant. -/
def exC1Db0 : ServerDb :=
  { bookings := [("b1", exBookingConfirmed), ("b2", exBookingCompleted)],
    parking_slots := [("s1", exSlotReserved)],
    slots_by_lot := [("l1:s1", exSlotReserved)],
    parking_lots := [], vehicles := [] }

/-- A request whose time range 150..3750 overlaps booking `b1`. -/
def exC1Req : CreateBookingRequest :=
  { exReq with start_time := 150 }

/-- State after cancelling the Completed booking `b2` at instant 60: `b2`
becomes Cancelled and the slot, being Reserved, is restored to Available
even though the Confirmed booking `b1` still covers it. -/
def exC1Db1 : ServerDb :=
  (cancel_booking exC1Db0 "u1" "b2" 60).2

/-- State after then creating an overlapping booking on the freed slot. -/
def exC1Db2 : ServerDb :=
  (create_booking exC1Db1 "u1" exC1Req 60 "b3" "q3").2

/-- A database whose only slot is Reserved. -/
def exDbReserved : ServerDb :=
  { bookings := [], parking_slots := [("s1", exSlotReserved)],
    slots_by_lot := [("l1:s1", exSlotReserved)], parking_lots := [],
    vehicles := [] }

/-- A create-booking request with zero duration. -/
def exReqZeroDur : CreateBookingRequest :=
  { exReq with duration_minutes := 0 }

/-- A session expiring exactly at instant 100. -/
def exSession : Session :=
  { user_id := "u1", username := "alice", role := "user",
    refresh_token := "rt_x", created_at := 0, expires_at := 100 }

/-- Default user preferences. -/
def exPrefs : UserPreferences :=
  { default_duration_minutes := none, favorite_slots := [],
    notifications_enabled := false, email_reminders := false,
    language := "", theme := "" }

/-- A concrete active user. -/
def exUser : User :=
  { id := "u1", username := "alice", email := "alice@x.test",
    password_hash := "h0", name := "Alice", picture := none, phone := none,
    role := .User, created_at := 0, updated_at := 0, last_login := none,
    preferences := exPrefs, is_active := true }

/-- An auth database holding one session under token `tok1`. -/
def exAuthDb : AuthDb :=
  { users := [], users_by_username := [], users_by_email := [],
    sessions := [("tok1", exSession)], settings := [] }

/-- An auth database with user `u1` and a tombstoned reset token:
settings maps `pwreset:tok` to the empty string. -/
def exTombstoneDb : AuthDb :=
  { users := [("u1", exUser)], users_by_username := [("alice", "u1")],
    users_by_email := [("alice@x.test", "u1")], sessions := [],
    settings := [("pwreset:tok", "")] }

/-- An auth database where `alice@x.test` resolves only through the email
index (no username index entry for that string). -/
def exLoginDb : AuthDb :=
  { users := [("u1", exUser)], users_by_username := [("alice", "u1")],
    users_by_email := [("alice@x.test", "u1")], sessions := [],
    settings := [] }

/-- A concrete password check: accepts exactly the pair used by the login
witness. -/
def exVerify : String → String → Bool :=
  fun password hash => password == "Password1" && hash == "h0"

/-- A concrete reset-token decoder: accepts exactly one well-formed
payload, and in particular fails on the empty string like any JSON
decoder. -/
def exDecodeToken : String → Option ResetTokenData :=
  fun s =>
    if s = "TOK-u1-3600" then some { user_id := "u1", expires_at := 3600 }
    else none

/-- A concrete password hasher. -/
def exHash : String → String := fun password => "argon2id$" ++ password

/-- A toy authenticated cipher for witnesses: tags the plaintext with key
byte 0. -/
def exCipher : AeadCipher :=
  { enc := fun _ d => 0 :: d
    dec := fun _ b =>
      match b with
      | 0 :: rest => some rest
      | _ => none }

/-- A second toy cipher with a different key byte; it rejects everything
`exCipher` produces. -/
def exCipherOther : AeadCipher :=
  { enc := fun _ d => 1 :: d
    dec := fun _ b =>
      match b with
      | 1 :: rest => some rest
      | _ => none }

/-- A concrete 12-byte nonce. -/
def exNonce : Bytes := List.replicate 12 7

/-- A concrete slot serializer for the index-consistency witness. -/
def exSer : ParkingSlot → Bytes := fun s => [s.slot_number.toNat]

/-- A concrete deserializer matching `exSer` on `exSlot`. -/
def exDec : Bytes → Option ParkingSlot :=
  fun b => if b = [1] then some exSlot else none

/-- A database with one Confirmed booking covering one Reserved slot. -/
def exDbBooked : ServerDb :=
  { bookings := [("b1", exBookingConfirmed)],
    parking_slots := [("s1", exSlotReserved)],
    slots_by_lot := [("l1:s1", exSlotReserved)], parking_lots := [],
    vehicles := [] }

/-- A handshake request carrying the server's protocol version. -/
def exHsReq : HandshakeRequest :=
  { client_version := "1.0.0", protocol_version := PROTOCOL_VERSION }

/-- The login request used by the email-login witness. -/
def exLoginReq : LoginRequest :=
  { username := "alice@x.test", password := "Password1" }

/-- An empty byte-level slot store. -/
def exEmptyStore : SlotStore :=
  { parking_slots := [], slots_by_lot := [] }

instance (b1 b2 : Booking) : Decidable (overlaps b1 b2) := by
  unfold overlaps; infer_instance

instance (db : ServerDb) : Decidable (NoActiveOverlap db) := by
  unfold NoActiveOverlap; infer_instance

instance (db : ServerDb) : Decidable (SpecConsistent db) := by
  unfold SpecConsistent; infer_instance

instance (db : ServerDb) : Decidable (WfDb db) := by
  unfold WfDb; infer_instance

instance (db : ServerDb) : Decidable (CoordInv db) := by
  unfold CoordInv; infer_instance

/-! # Theorems

First the library-level lemmas about tables, prefix tests and the
encryption framing, then the claim theorems with their witnesses. -/

namespace KvTable

theorem find?_insert_self {V : Type} (t : KvTable V) (k : String) (v : V) :
    (t.insert k v).find? k = some v := by
  simp [insert, find?]

theorem find?_insert_ne {V : Type} (t : KvTable V) (k k' : String) (v : V)
    (h : k' ≠ k) : (t.insert k v).find? k' = t.find? k' := by
  simp only [insert, find?, if_neg h]
  induction t with
  | nil => rfl
  | cons p t ih =>
    by_cases hp : p.1 = k
    · have hk' : ¬k' = p.1 := fun e => h (e.trans hp)
      rw [List.filter_cons_of_neg (by simp [hp]), ih]
      simp [find?, hk']
    · rw [List.filter_cons_of_pos (by simp [hp])]
      by_cases hk' : k' = p.1
      · simp [find?, hk']
      · simp only [find?, if_neg hk']
        exact ih

theorem mem_insert {V : Type} {t : KvTable V} {k : String} {v : V}
    {p : String × V} (h : p ∈ t.insert k v) :
    p = (k, v) ∨ (p ∈ t ∧ p.1 ≠ k) := by
  simp only [insert, List.mem_cons] at h
  rcases h with h | h
  · exact Or.inl h
  · right
    have := List.mem_filter.mp h
    exact ⟨this.1, by simpa using this.2⟩

theorem find?_mem {V : Type} {t : KvTable V} {k : String} {v : V}
    (h : t.find? k = some v) : (k, v) ∈ t := by
  induction t with
  | nil => simp [find?] at h
  | cons p t ih =>
    by_cases hk : k = p.1
    · rw [find?, if_pos hk] at h
      injection h with h
      subst hk h
      simp
    · rw [find?, if_neg hk] at h
      exact List.mem_cons_of_mem _ (ih h)

end KvTable

theorem chars_lead_append (p r : List Char) : chars_lead p (p ++ r) = true := by
  induction p with
  | nil => rfl
  | cons a p ih => simp [chars_lead, ih]

theorem starts_with_append (a b : String) : starts_with (a ++ b) a = true := by
  unfold starts_with
  rw [String.data_append]
  exact chars_lead_append a.data b.data

theorem Encryptor.decrypt_encrypt {c : AeadCipher} (hc : c.RoundTrip)
    (nonce data : Bytes) (hn : nonce.length = 12) :
    Encryptor.decrypt c (Encryptor.encrypt c nonce data) = some data := by
  unfold Encryptor.decrypt Encryptor.encrypt
  have hlen : (nonce ++ c.enc nonce data).length = 12 + (c.enc nonce data).length := by
    simp [hn]
  rw [if_neg (by omega), List.take_left' hn, List.drop_left' hn]
  exact hc nonce data

theorem Encryptor.decrypt_wrong_key {c c' : AeadCipher} (hrej : c'.Rejects c)
    (nonce data : Bytes) (hn : nonce.length = 12) :
    Encryptor.decrypt c' (Encryptor.encrypt c nonce data) = none := by
  unfold Encryptor.decrypt Encryptor.encrypt
  have hlen : (nonce ++ c.enc nonce data).length = 12 + (c.enc nonce data).length := by
    simp [hn]
  rw [if_neg (by omega), List.take_left' hn, List.drop_left' hn]
  exact hrej nonce data

/-- C4: for every byte string, decrypting the output of `Encryptor::encrypt`
with the same derived key returns the original bytes, and decrypting an
encrypt output under a key derived from a different passphrase fails with
an error rather than returning bytes.  The AES-256-GCM cipher and PBKDF2
derivation are external crates, abstracted here by the AEAD round-trip and
authentication contracts; the repository's nonce prepend/split framing is
what is verified. -/
theorem C4_encryptor_roundtrip_and_wrong_key (c c' : AeadCipher)
    (nonce data : Bytes) (hc : c.RoundTrip) (hrej : c'.Rejects c)
    (hn : nonce.length = 12) :
    Encryptor.decrypt c (Encryptor.encrypt c nonce data) = some data ∧
    Encryptor.decrypt c' (Encryptor.encrypt c nonce data) = none :=
  ⟨Encryptor.decrypt_encrypt hc nonce data hn,
   Encryptor.decrypt_wrong_key hrej nonce data hn⟩

/-- Witness for C4 at a concrete cipher pair, nonce and payload. -/
theorem C4_encryptor_roundtrip_and_wrong_key_witness :
    Encryptor.decrypt exCipher (Encryptor.encrypt exCipher exNonce [10, 20]) =
      some [10, 20] ∧
    Encryptor.decrypt exCipherOther (Encryptor.encrypt exCipher exNonce [10, 20]) =
      none :=
  C4_encryptor_roundtrip_and_wrong_key exCipher exCipherOther exNonce [10, 20]
    (fun _ _ => rfl) (fun _ _ => rfl) (by decide)

/-- Writing a booking does not touch the slots table. -/
theorem get_parking_slot_save_booking (db : ServerDb) (b : Booking)
    (id : String) :
    (db.save_booking b).get_parking_slot id = db.get_parking_slot id := rfl

/-- Under a found Available slot and a passing vehicle check,
`create_booking` reduces to its validation-and-write tail for some
vehicle. -/
theorem create_booking_reduces (db : ServerDb) (uid : String)
    (req : CreateBookingRequest) (now : Int) (bid qr : String)
    (slot : ParkingSlot)
    (hslot : db.get_parking_slot req.slot_id = some slot)
    (havail : slot.status = SlotStatus.Available)
    (hveh : ∀ v, db.get_vehicle req.vehicle_id = some v → v.user_id = uid) :
    ∃ vehicle, create_booking db uid req now bid qr =
      create_booking_go db uid req now bid qr slot vehicle := by
  cases hv : db.get_vehicle req.vehicle_id with
  | some v =>
    refine ⟨v, ?_⟩
    simp [create_booking, hslot, hv, havail, hveh v hv]
  | none =>
    refine ⟨ephemeral_vehicle uid req now, ?_⟩
    simp [create_booking, hslot, hv, havail]

/-- The validation-and-write tail succeeds on positive duration and a
future start, creating the Confirmed booking and flipping the slot. -/
theorem create_booking_go_success (db : ServerDb) (uid : String)
    (req : CreateBookingRequest) (now : Int) (bid qr : String)
    (slot : ParkingSlot) (vehicle : Vehicle)
    (hdur : 1 ≤ req.duration_minutes) (hstart : now < req.start_time) :
    ∃ b, create_booking_go db uid req now bid qr slot vehicle =
        (.created b,
          (db.save_booking b).save_parking_slot
            { slot with status := SlotStatus.Reserved }) ∧
      b.status = .Confirmed ∧
      b.pricing.base_price = ((req.duration_minutes : Rat) / 60) * 2 ∧
      b.pricing.tax = b.pricing.base_price * (1 / 10) ∧
      b.pricing.total = b.pricing.base_price + b.pricing.tax ∧
      b.pricing.currency = "EUR" ∧
      b.pricing.payment_status = .Pending ∧
      b.slot_id = req.slot_id ∧ b.user_id = uid := by
  unfold create_booking_go
  rw [if_neg (by omega), if_neg (by omega)]
  exact ⟨_, rfl, rfl, rfl, rfl, rfl, rfl, rfl, rfl, rfl⟩

/-- C2: a create-booking request that passes validation (slot exists and
is Available, any resolved vehicle is owned by the caller, duration at
least 1, start strictly in the future) returns HTTP 201 with a Confirmed
booking priced base=(duration/60)*2.00, tax=base*0.10, total=base+tax,
currency EUR, payment Pending; afterwards the slot is Reserved.  The
`f64` pricing arithmetic is modelled exactly over the rationals. -/
theorem C2_create_booking_success (db : ServerDb) (uid : String)
    (req : CreateBookingRequest) (now : Int) (bid qr : String)
    (slot : ParkingSlot)
    (hslot : db.get_parking_slot req.slot_id = some slot)
    (hid : slot.id = req.slot_id)
    (havail : slot.status = SlotStatus.Available)
    (hveh : ∀ v, db.get_vehicle req.vehicle_id = some v → v.user_id = uid)
    (hdur : 1 ≤ req.duration_minutes) (hstart : now < req.start_time) :
    ∃ b, (create_booking db uid req now bid qr).1 = .created b ∧
      (create_booking db uid req now bid qr).1.http_status = 201 ∧
      b.status = .Confirmed ∧
      b.pricing.base_price = ((req.duration_minutes : Rat) / 60) * 2 ∧
      b.pricing.tax = b.pricing.base_price * (1 / 10) ∧
      b.pricing.total = b.pricing.base_price + b.pricing.tax ∧
      b.pricing.currency = "EUR" ∧
      b.pricing.payment_status = .Pending ∧
      (create_booking db uid req now bid qr).2.get_parking_slot req.slot_id =
        some { slot with status := SlotStatus.Reserved } := by
  obtain ⟨vehicle, hred⟩ :=
    create_booking_reduces db uid req now bid qr slot hslot havail hveh
  obtain ⟨b, hgo, hconf, hbase, htax, htotal, hcur, hpay, -, -⟩ :=
    create_booking_go_success db uid req now bid qr slot vehicle hdur hstart
  refine ⟨b, ?_, ?_, hconf, hbase, htax, htotal, hcur, hpay, ?_⟩
  · rw [hred, hgo]
  · rw [hred, hgo]
    rfl
  · rw [hred, hgo]
    show ((db.save_booking b).save_parking_slot
      { slot with status := SlotStatus.Reserved }).get_parking_slot req.slot_id = _
    unfold ServerDb.save_parking_slot ServerDb.get_parking_slot
    simp only
    have : ({ slot with status := SlotStatus.Reserved } : ParkingSlot).id = req.slot_id := hid
    rw [← this]
    exact KvTable.find?_insert_self _ _ _

/-- Witness for C2 at the concrete fixture state. -/
theorem C2_create_booking_success_witness :
    ∃ b, (create_booking exDb "u1" exReq 0 "b1" "q1").1 = .created b ∧
      (create_booking exDb "u1" exReq 0 "b1" "q1").1.http_status = 201 ∧
      b.status = .Confirmed ∧
      b.pricing.base_price = ((exReq.duration_minutes : Rat) / 60) * 2 ∧
      b.pricing.tax = b.pricing.base_price * (1 / 10) ∧
      b.pricing.total = b.pricing.base_price + b.pricing.tax ∧
      b.pricing.currency = "EUR" ∧
      b.pricing.payment_status = .Pending ∧
      (create_booking exDb "u1" exReq 0 "b1" "q1").2.get_parking_slot
        exReq.slot_id = some { exSlot with status := SlotStatus.Reserved } :=
  C2_create_booking_success exDb "u1" exReq 0 "b1" "q1" exSlot rfl rfl rfl
    (fun _ h => nomatch h) (by decide) (by decide)

/-- C3: cancelling a not-yet-cancelled booking owned by the caller
restores the slot to Available exactly when it was Reserved at
cancellation time; a slot in Maintenance or Disabled (or any other
non-Reserved status) is left untouched. -/
theorem C3_cancel_booking_slot_restore (db : ServerDb) (uid bid : String)
    (now : Int) (booking : Booking) (slot : ParkingSlot)
    (hb : db.get_booking bid = some booking)
    (hown : booking.user_id = uid)
    (hnc : booking.status ≠ BookingStatus.Cancelled)
    (hs : db.get_parking_slot booking.slot_id = some slot)
    (hsid : slot.id = booking.slot_id) :
    (cancel_booking db uid bid now).1 = .ok ∧
    (cancel_booking db uid bid now).2.get_parking_slot booking.slot_id =
      some (if slot.status = SlotStatus.Reserved
        then { slot with status := SlotStatus.Available } else slot) ∧
    ((slot.status = SlotStatus.Maintenance ∨ slot.status = SlotStatus.Disabled) →
      (cancel_booking db uid bid now).2.get_parking_slot booking.slot_id =
        some slot) ∧
    (slot.status ≠ SlotStatus.Available →
      ((((cancel_booking db uid bid now).2.get_parking_slot booking.slot_id).map
          ParkingSlot.status = some SlotStatus.Available) ↔
        slot.status = SlotStatus.Reserved)) := by
  by_cases hres : slot.status = SlotStatus.Reserved
  · have hstep : cancel_booking db uid bid now =
        (.ok, (db.save_booking { booking with
            status := BookingStatus.Cancelled, updated_at := now }).save_parking_slot
          { slot with status := SlotStatus.Available }) := by
      simp [cancel_booking, hb, hown, hnc, get_parking_slot_save_booking, hs, hres]
    have hlook : ((db.save_booking { booking with
        status := BookingStatus.Cancelled, updated_at := now }).save_parking_slot
          { slot with status := SlotStatus.Available }).get_parking_slot
          booking.slot_id =
        some { slot with status := SlotStatus.Available } := by
      unfold ServerDb.save_parking_slot ServerDb.get_parking_slot
      have hkey : ({ slot with status := SlotStatus.Available } : ParkingSlot).id =
          booking.slot_id := hsid
      rw [← hkey]
      exact KvTable.find?_insert_self _ _ _
    refine ⟨by rw [hstep], ?_, ?_, ?_⟩
    · rw [hstep, if_pos hres]
      exact hlook
    · intro hmd
      rcases hmd with h | h <;> rw [hres] at h <;> cases h
    · intro _
      rw [hstep]
      simp [hlook, hres]
  · have hstep : cancel_booking db uid bid now =
        (.ok, db.save_booking { booking with
            status := BookingStatus.Cancelled, updated_at := now }) := by
      simp [cancel_booking, hb, hown, hnc, get_parking_slot_save_booking, hs, hres]
    have hlook : (db.save_booking { booking with
        status := BookingStatus.Cancelled, updated_at := now }).get_parking_slot
          booking.slot_id = some slot := hs
    refine ⟨by rw [hstep], ?_, ?_, ?_⟩
    · rw [hstep, if_neg hres]
      exact hlook
    · intro _
      rw [hstep]
      exact hlook
    · intro hna
      rw [hstep]
      constructor
      · intro hmap
        rw [hlook] at hmap
        exact absurd (Option.some.inj hmap) hna
      · intro h
        exact absurd h hres

/-- Witness for C3 at a Reserved slot: cancellation restores Available. -/
theorem C3_cancel_booking_slot_restore_witness :
    (cancel_booking exDbBooked "u1" "b1" 300).1 = .ok ∧
    (cancel_booking exDbBooked "u1" "b1" 300).2.get_parking_slot
        exBookingConfirmed.slot_id =
      some (if exSlotReserved.status = SlotStatus.Reserved
        then { exSlotReserved with status := SlotStatus.Available }
        else exSlotReserved) ∧
    ((exSlotReserved.status = SlotStatus.Maintenance ∨
        exSlotReserved.status = SlotStatus.Disabled) →
      (cancel_booking exDbBooked "u1" "b1" 300).2.get_parking_slot
        exBookingConfirmed.slot_id = some exSlotReserved) ∧
    (exSlotReserved.status ≠ SlotStatus.Available →
      ((((cancel_booking exDbBooked "u1" "b1" 300).2.get_parking_slot
          exBookingConfirmed.slot_id).map ParkingSlot.status =
          some SlotStatus.Available) ↔
        exSlotReserved.status = SlotStatus.Reserved)) :=
  C3_cancel_booking_slot_restore exDbBooked "u1" "b1" 300 exBookingConfirmed
    exSlotReserved rfl rfl (by decide) rfl rfl

/-- C6 as stated is false: the slot-status check precedes the duration
check, so a zero-duration request on a Reserved slot fails with 409
SLOT_UNAVAILABLE instead of 400 INVALID_INPUT. -/
theorem C6_counterexample :
    exReqZeroDur.duration_minutes = 0 ∧
    (create_booking exDbReserved "u1" exReqZeroDur 0 "b1" "q1").1 =
      .err 409 "SLOT_UNAVAILABLE" ∧
    (create_booking exDbReserved "u1" exReqZeroDur 0 "b1" "q1").1 ≠
      .err 400 "INVALID_INPUT" := by
  refine ⟨rfl, by decide, by decide⟩

/-- C6 amended: a create-booking request with non-positive duration fails
with 400 INVALID_INPUT, provided the referenced slot exists with status
Available and any resolved vehicle belongs to the caller (those checks
run first and take precedence). -/
theorem C6_amended_nonpositive_duration (db : ServerDb) (uid : String)
    (req : CreateBookingRequest) (now : Int) (bid qr : String)
    (slot : ParkingSlot)
    (hslot : db.get_parking_slot req.slot_id = some slot)
    (havail : slot.status = SlotStatus.Available)
    (hveh : ∀ v, db.get_vehicle req.vehicle_id = some v → v.user_id = uid)
    (hdur : req.duration_minutes ≤ 0) :
    create_booking db uid req now bid qr = (.err 400 "INVALID_INPUT", db) := by
  obtain ⟨vehicle, hred⟩ :=
    create_booking_reduces db uid req now bid qr slot hslot havail hveh
  rw [hred]
  unfold create_booking_go
  rw [if_pos hdur]

/-- Witness for the amended C6 at a concrete Available slot. -/
theorem C6_amended_nonpositive_duration_witness :
    create_booking exDb "u1" exReqZeroDur 0 "b1" "q1" =
      (.err 400 "INVALID_INPUT", exDb) :=
  C6_amended_nonpositive_duration exDb "u1" exReqZeroDur 0 "b1" "q1" exSlot
    rfl rfl (fun _ h => nomatch h) (by decide)

/-- C5 as stated is false at the boundary: both expiry comparisons
(`get_session` and `Session::is_expired`) are strict, so a session with
`expires_at` equal to `now` satisfies `expires_at ≤ now` yet the request
is accepted and the handler runs. -/
theorem C5_counterexample :
    exSession.expires_at ≤ 100 ∧
    auth_middleware exAuthDb (some "Bearer tok1") 100 = .ok "u1" := by
  exact ⟨by decide, by decide⟩

/-- C5 amended: a request bearing a token whose stored session satisfies
`expires_at < now` (strictly in the past) is rejected with 401
UNAUTHORIZED and the handler is never invoked; at `expires_at = now` the
request is still accepted. -/
theorem C5_amended_expired_session_rejected (db : AuthDb) (tok : String)
    (s : Session) (now : Int)
    (hfind : db.sessions.find? tok = some s)
    (hexp : s.expires_at < now) :
    auth_middleware db (some ("Bearer " ++ tok)) now =
      .unauthorized "Invalid or expired token" := by
  have hsw : starts_with ("Bearer " ++ tok) "Bearer " = true :=
    starts_with_append "Bearer " tok
  have htok : String.mk (("Bearer " ++ tok).data.drop 7) = tok := by
    rw [String.data_append]
    have h7 : ("Bearer " : String).data.length = 7 := rfl
    rw [← h7, List.drop_left]
  have hsess : db.get_session tok now = none := by
    simp [AuthDb.get_session, hfind, hexp]
  simp [auth_middleware, hsw, htok, hsess]

/-- Witness for the amended C5: an expired session is rejected. -/
theorem C5_amended_expired_session_rejected_witness :
    auth_middleware exAuthDb (some ("Bearer " ++ "tok1")) 101 =
      .unauthorized "Invalid or expired token" :=
  C5_amended_expired_session_rejected exAuthDb "tok1" exSession 101 rfl
    (by decide)

/-- C7: the claim matches the code's intent — the tombstone-writing site
itself comments that callers treat an empty settings value as "not
present" — but `reset_password` does not special-case it: on a tombstoned
token `get_setting` returns `Some("")`, JSON deserialization of the empty
string fails, and the call returns 500 SERVER_ERROR instead of the
claimed 400 INVALID_TOKEN.  The absent-key half of the claim does hold. -/
theorem C7_reset_password_tombstone_server_error
    (dec : String → Option ResetTokenData) (hash : String → String)
    (db db2 : AuthDb) (tok tok2 pw : String) (now : Int)
    (hdec : dec "" = none)
    (htomb : db.get_setting ("pwreset:" ++ tok) = some "")
    (habsent : db2.get_setting ("pwreset:" ++ tok2) = none) :
    reset_password dec hash db tok pw now = (.err 500 "SERVER_ERROR", db) ∧
    (reset_password dec hash db tok pw now).1 ≠ .err 400 "INVALID_TOKEN" ∧
    reset_password dec hash db2 tok2 pw now = (.err 400 "INVALID_TOKEN", db2) := by
  have h1 : reset_password dec hash db tok pw now = (.err 500 "SERVER_ERROR", db) := by
    simp [reset_password, htomb, hdec]
  refine ⟨h1, by rw [h1]; simp, ?_⟩
  simp [reset_password, habsent]

/-- Witness for C7 at a concrete tombstoned token and a concrete absent
token. -/
theorem C7_reset_password_tombstone_server_error_witness :
    reset_password exDecodeToken exHash exTombstoneDb "tok" "newpassword1" 0 =
      (.err 500 "SERVER_ERROR", exTombstoneDb) ∧
    (reset_password exDecodeToken exHash exTombstoneDb "tok" "newpassword1" 0).1 ≠
      .err 400 "INVALID_TOKEN" ∧
    reset_password exDecodeToken exHash exTombstoneDb "other" "newpassword1" 0 =
      (.err 400 "INVALID_TOKEN", exTombstoneDb) :=
  C7_reset_password_tombstone_server_error exDecodeToken exHash exTombstoneDb
    exTombstoneDb "tok" "other" "newpassword1" 0 (by decide) (by decide)
    (by decide)

/-- C8: the handshake always answers HTTP 200; the body is an error
envelope with code PROTOCOL_MISMATCH exactly when the request's
`protocol_version` differs byte-for-byte from the server constant, and
otherwise a success envelope whose `protocol_version` equals the
constant. -/
theorem C8_handshake_protocol_gate (server_name : String)
    (req : HandshakeRequest) :
    (handshake server_name req).1 = 200 ∧
    ((∃ e, (handshake server_name req).2.error = some e ∧
        e.code = "PROTOCOL_MISMATCH" ∧
        (handshake server_name req).2.success = false) ↔
      req.protocol_version ≠ PROTOCOL_VERSION) ∧
    (req.protocol_version = PROTOCOL_VERSION →
      (handshake server_name req).2 = ApiResponse.mk_success
        { server_name := server_name, server_version := CARGO_PKG_VERSION,
          protocol_version := PROTOCOL_VERSION, requires_auth := true,
          certificate_fingerprint := "" }) := by
  by_cases h : req.protocol_version = PROTOCOL_VERSION
  · simp [handshake, h, ApiResponse.mk_success]
  · simp [handshake, h, ApiResponse.mk_error]

/-- Witness for C8 at a concrete matching request. -/
theorem C8_handshake_protocol_gate_witness :
    (handshake "srv" exHsReq).1 = 200 ∧
    ((∃ e, (handshake "srv" exHsReq).2.error = some e ∧
        e.code = "PROTOCOL_MISMATCH" ∧
        (handshake "srv" exHsReq).2.success = false) ↔
      exHsReq.protocol_version ≠ PROTOCOL_VERSION) ∧
    (exHsReq.protocol_version = PROTOCOL_VERSION →
      (handshake "srv" exHsReq).2 = ApiResponse.mk_success
        { server_name := "srv", server_version := CARGO_PKG_VERSION,
          protocol_version := PROTOCOL_VERSION, requires_auth := true,
          certificate_fingerprint := "" }) :=
  C8_handshake_protocol_gate "srv" exHsReq

/-- Any list of rows whose values all deserialize maps to some list. -/
theorem mapM_dec_total {dec : Bytes → Option ParkingSlot}
    (l : List (String × Bytes))
    (h : ∀ p ∈ l, ∃ s', dec p.2 = some s') :
    ∃ l', l.mapM (fun p => dec p.2) = some l' := by
  induction l with
  | nil => exact ⟨[], rfl⟩
  | cons p l ih =>
    obtain ⟨s', hs'⟩ := h p (List.mem_cons_self p l)
    obtain ⟨l', hl'⟩ := ih (fun q hq => h q (List.mem_cons_of_mem _ hq))
    refine ⟨s' :: l', ?_⟩
    rw [List.mapM_cons, hs', hl']
    rfl

/-- C9: after `save_parking_slot(s)` the `slots_by_lot` row under
`"<lot_id>:<slot_id>"` holds the same serialized blob as the primary
`parking_slots` row (both written in the same transaction), and
`list_slots_by_lot(s.lot_id)` then returns a list containing `s`.  The
serde codec (plus optional encryption layer) is a parameter pair assumed
to round-trip on the stored blobs. -/
theorem C9_save_slot_index_consistency (ser : ParkingSlot → Bytes)
    (dec : Bytes → Option ParkingSlot) (st : SlotStore) (s : ParkingSlot)
    (hrt : dec (ser s) = some s)
    (hwf : ∀ p ∈ st.slots_by_lot, ∃ s', dec p.2 = some s') :
    (SlotStore.save_parking_slot ser st s).parking_slots.find? s.id =
      some (ser s) ∧
    (SlotStore.save_parking_slot ser st s).slots_by_lot.find?
      (s.lot_id ++ ":" ++ s.id) = some (ser s) ∧
    ∃ l, SlotStore.list_slots_by_lot dec (SlotStore.save_parking_slot ser st s)
        s.lot_id = some l ∧ s ∈ l := by
  refine ⟨KvTable.find?_insert_self _ _ _, KvTable.find?_insert_self _ _ _, ?_⟩
  have hkey : starts_with (s.lot_id ++ ":" ++ s.id) (s.lot_id ++ ":") = true :=
    starts_with_append (s.lot_id ++ ":") s.id
  have hsub : ∀ p ∈ (st.slots_by_lot.filter
      (fun p => p.1 ≠ s.lot_id ++ ":" ++ s.id)).filter
      (fun p => starts_with p.1 (s.lot_id ++ ":")),
      ∃ s', dec p.2 = some s' := fun p hp =>
    hwf p (List.mem_of_mem_filter (List.mem_of_mem_filter hp))
  obtain ⟨l', hl'⟩ := mapM_dec_total _ hsub
  refine ⟨s :: l', ?_, List.mem_cons_self s l'⟩
  show ((st.slots_by_lot.insert (s.lot_id ++ ":" ++ s.id) (ser s)).filter
      (fun p => starts_with p.1 (s.lot_id ++ ":"))).mapM (fun p => dec p.2) =
    some (s :: l')
  unfold KvTable.insert
  rw [List.filter_cons_of_pos (by simpa using hkey), List.mapM_cons, hrt, hl']
  rfl

/-- Witness for C9 on the empty store with a concrete codec. -/
theorem C9_save_slot_index_consistency_witness :
    (SlotStore.save_parking_slot exSer exEmptyStore exSlot).parking_slots.find?
        exSlot.id = some (exSer exSlot) ∧
    (SlotStore.save_parking_slot exSer exEmptyStore exSlot).slots_by_lot.find?
        (exSlot.lot_id ++ ":" ++ exSlot.id) = some (exSer exSlot) ∧
    ∃ l, SlotStore.list_slots_by_lot exDec
        (SlotStore.save_parking_slot exSer exEmptyStore exSlot) exSlot.lot_id =
        some l ∧ exSlot ∈ l :=
  C9_save_slot_index_consistency exSer exDec exEmptyStore exSlot (by decide)
    (fun p hp => absurd hp (List.not_mem_nil p))

/-- C10: login accepts the user's email address in place of the username:
when the username lookup misses but the string resolves through the email
index to an active user and the password verifies, login answers the 200
success carrying the user (hash blanked) and fresh tokens — and the
response equals what a username login resolving the same user would
produce. -/
theorem C10_login_by_email (verify : String → String → Bool) (db : AuthDb)
    (req : LoginRequest) (now : Int) (access_tok refresh_tok : String)
    (u : User)
    (hu : db.get_user_by_username req.username = none)
    (he : db.get_user_by_email req.username = some u)
    (hpw : verify req.password u.password_hash = true)
    (hact : u.is_active = true) :
    (login verify db req now access_tok refresh_tok).1 = .ok
      { user := { u with password_hash := "" }
        tokens :=
          { access_token := access_tok, refresh_token := "rt_" ++ refresh_tok,
            expires_at := now + 3600 * 24, token_type := "Bearer" } } ∧
    (∀ db2 : AuthDb, db2.get_user_by_username req.username = some u →
      (login verify db2 req now access_tok refresh_tok).1 =
        (login verify db req now access_tok refresh_tok).1) := by
  constructor
  · simp [login, hu, he, hpw, hact, Session.new]
  · intro db2 h2
    simp [login, hu, he, h2, hpw, hact]

/-- Witness for C10: `alice@x.test` logs in through the email index. -/
theorem C10_login_by_email_witness :
    (login exVerify exLoginDb
        { username := "alice@x.test", password := "Password1" } 0 "at1" "r1").1 =
      .ok { user := { exUser with password_hash := "" }
            tokens :=
              { access_token := "at1", refresh_token := "rt_" ++ "r1",
                expires_at := 0 + 3600 * 24, token_type := "Bearer" } } ∧
    (∀ db2 : AuthDb, db2.get_user_by_username "alice@x.test" = some exUser →
      (login exVerify db2
          { username := "alice@x.test", password := "Password1" } 0 "at1" "r1").1 =
        (login exVerify exLoginDb
          { username := "alice@x.test", password := "Password1" } 0 "at1" "r1").1) :=
  C10_login_by_email exVerify exLoginDb
    { username := "alice@x.test", password := "Password1" } 0 "at1" "r1" exUser
    rfl rfl rfl rfl

/-- The inductive coordinator invariant rules out two distinct active
bookings on one slot outright, hence any overlap. -/
theorem coordinv_no_overlap {db : ServerDb} (h : CoordInv db) :
    NoActiveOverlap db := by
  obtain ⟨-, hstat, huniq, -⟩ := h
  intro p1 h1 p2 h2 hne ha1 ha2 hslot
  have hc1 : p1.2.status = BookingStatus.Confirmed := by
    rcases hstat p1 h1 with h | h
    · exact h
    · rw [h] at ha1
      simp [BookingStatus.is_active] at ha1
  have hc2 : p2.2.status = BookingStatus.Confirmed := by
    rcases hstat p2 h2 with h | h
    · exact h
    · rw [h] at ha2
      simp [BookingStatus.is_active] at ha2
  exact absurd hslot (huniq p1 h1 p2 h2 hne hc1 hc2)

/-- The possible final states of `create_booking`: either the state is
unchanged (an error branch), or the slot was found Available and the
state gains a Confirmed booking on it while the slot flips Reserved. -/
theorem create_booking_go_state_cases (db : ServerDb) (uid : String)
    (req : CreateBookingRequest) (now : Int) (bid qr : String)
    (slot : ParkingSlot) (vehicle : Vehicle) :
    (create_booking_go db uid req now bid qr slot vehicle).2 = db ∨
    ∃ b, b.status = BookingStatus.Confirmed ∧ b.slot_id = req.slot_id ∧
      (create_booking_go db uid req now bid qr slot vehicle).2 =
        (db.save_booking b).save_parking_slot
          { slot with status := SlotStatus.Reserved } := by
  by_cases hdur : req.duration_minutes ≤ 0
  · left
    simp [create_booking_go, hdur]
  · by_cases hstart : req.start_time ≤ now
    · left
      simp [create_booking_go, hdur, hstart]
    · right
      obtain ⟨b, hgo, hconf, -, -, -, -, -, hbslot, -⟩ :=
        create_booking_go_success db uid req now bid qr slot vehicle
          (by omega) (by omega)
      exact ⟨b, hconf, hbslot, by rw [hgo]⟩

/-- Control-flow enumeration of `create_booking`'s resulting state. -/
theorem create_booking_state_cases (db : ServerDb) (uid : String)
    (req : CreateBookingRequest) (now : Int) (bid qr : String) :
    (create_booking db uid req now bid qr).2 = db ∨
    ∃ slot b, db.get_parking_slot req.slot_id = some slot ∧
      slot.status = SlotStatus.Available ∧
      b.status = BookingStatus.Confirmed ∧ b.slot_id = req.slot_id ∧
      (create_booking db uid req now bid qr).2 =
        (db.save_booking b).save_parking_slot
          { slot with status := SlotStatus.Reserved } := by
  cases hslot : db.get_parking_slot req.slot_id with
  | none =>
    left
    simp [create_booking, hslot]
  | some slot =>
    by_cases havail : slot.status = SlotStatus.Available
    · cases hv : db.get_vehicle req.vehicle_id with
      | some v =>
        by_cases hvu : v.user_id = uid
        · have hred : create_booking db uid req now bid qr =
              create_booking_go db uid req now bid qr slot v := by
            simp [create_booking, hslot, havail, hv, hvu]
          rcases create_booking_go_state_cases db uid req now bid qr slot v with
            h | ⟨b, h1, h2, h3⟩
          · left
            rw [hred]
            exact h
          · right
            exact ⟨slot, b, rfl, havail, h1, h2, by rw [hred]; exact h3⟩
        · left
          simp [create_booking, hslot, havail, hv, hvu]
      | none =>
        have hred : create_booking db uid req now bid qr =
            create_booking_go db uid req now bid qr slot
              (ephemeral_vehicle uid req now) := by
          simp [create_booking, hslot, havail, hv]
        rcases create_booking_go_state_cases db uid req now bid qr slot
            (ephemeral_vehicle uid req now) with h | ⟨b, h1, h2, h3⟩
        · left
          rw [hred]
          exact h
        · right
          exact ⟨slot, b, rfl, havail, h1, h2, by rw [hred]; exact h3⟩
    · left
      simp [create_booking, hslot, havail]

/-- Control-flow enumeration of `cancel_booking`'s resulting state. -/
theorem cancel_booking_state_cases (db : ServerDb) (uid id : String)
    (now : Int) :
    (cancel_booking db uid id now).2 = db ∨
    ∃ booking, db.get_booking id = some booking ∧ booking.user_id = uid ∧
      booking.status ≠ BookingStatus.Cancelled ∧
      ((cancel_booking db uid id now).2 =
          db.save_booking { booking with
            status := BookingStatus.Cancelled, updated_at := now } ∨
        ∃ slot, db.get_parking_slot booking.slot_id = some slot ∧
          slot.status = SlotStatus.Reserved ∧
          (cancel_booking db uid id now).2 =
            (db.save_booking { booking with
              status := BookingStatus.Cancelled, updated_at := now
              }).save_parking_slot { slot with status := SlotStatus.Available }) := by
  cases hb : db.get_booking id with
  | none =>
    left
    simp [cancel_booking, hb]
  | some booking =>
    by_cases hown : booking.user_id = uid
    · by_cases hcan : booking.status = BookingStatus.Cancelled
      · left
        simp [cancel_booking, hb, hown, hcan]
      · right
        refine ⟨booking, rfl, hown, hcan, ?_⟩
        cases hs : db.get_parking_slot booking.slot_id with
        | none =>
          left
          simp [cancel_booking, hb, hown, hcan, get_parking_slot_save_booking, hs]
        | some slot =>
          by_cases hres : slot.status = SlotStatus.Reserved
          · right
            refine ⟨slot, rfl, hres, ?_⟩
            simp [cancel_booking, hb, hown, hcan, get_parking_slot_save_booking,
              hs, hres]
          · left
            simp [cancel_booking, hb, hown, hcan, get_parking_slot_save_booking,
              hs, hres]
    · left
      simp [cancel_booking, hb, hown]

/-- Slot lookup after writing a slot: the written id. -/
theorem get_parking_slot_save_self (db : ServerDb) (s : ParkingSlot) :
    (db.save_parking_slot s).get_parking_slot s.id = some s :=
  KvTable.find?_insert_self _ _ _

/-- Slot lookup after writing a slot: any other id is unchanged. -/
theorem get_parking_slot_save_ne (db : ServerDb) (s : ParkingSlot)
    (x : String) (h : x ≠ s.id) :
    (db.save_parking_slot s).get_parking_slot x = db.get_parking_slot x :=
  KvTable.find?_insert_ne _ _ _ _ h

/-- The coordinator invariant is preserved by a successful
`create_booking`: the new Confirmed booking sits on a previously
Available slot, which flips to Reserved. -/
theorem coordinv_create_success {db : ServerDb} {req : CreateBookingRequest}
    {slot : ParkingSlot} {b : Booking}
    (hinv : CoordInv db)
    (hslot : db.get_parking_slot req.slot_id = some slot)
    (havail : slot.status = SlotStatus.Available)
    (hconf : b.status = BookingStatus.Confirmed)
    (hbslot : b.slot_id = req.slot_id) :
    CoordInv ((db.save_booking b).save_parking_slot
      { slot with status := SlotStatus.Reserved }) := by
  obtain ⟨⟨hwfb, hwfs⟩, hstat, huniq, hcover⟩ := hinv
  have hid : slot.id = req.slot_id := hwfs _ (KvTable.find?_mem hslot)
  have huid : ({ slot with status := SlotStatus.Reserved } : ParkingSlot).id =
      slot.id := rfl
  refine ⟨⟨?_, ?_⟩, ?_, ?_, ?_⟩
  · intro p hp
    rcases KvTable.mem_insert hp with h | ⟨h, -⟩
    · rw [h]
    · exact hwfb p h
  · intro p hp
    rcases KvTable.mem_insert hp with h | ⟨h, -⟩
    · rw [h]
    · exact hwfs p h
  · intro p hp
    rcases KvTable.mem_insert hp with h | ⟨h, -⟩
    · left
      rw [h]
      exact hconf
    · exact hstat p h
  · intro p1 h1 p2 h2 hne hc1 hc2
    rcases KvTable.mem_insert h1 with e1 | ⟨m1, -⟩ <;>
      rcases KvTable.mem_insert h2 with e2 | ⟨m2, -⟩
    · rw [e1, e2] at hne
      exact absurd rfl hne
    · rw [e1]
      intro heq
      have hlk : db.get_parking_slot p2.2.slot_id = some slot := by
        rw [show p2.2.slot_id = req.slot_id from by rw [← heq]; exact hbslot]
        exact hslot
      exact (hcover p2 m2 hc2 slot hlk) havail
    · rw [e2]
      intro heq
      have hlk : db.get_parking_slot p1.2.slot_id = some slot := by
        rw [show p1.2.slot_id = req.slot_id from by rw [heq]; exact hbslot]
        exact hslot
      exact (hcover p1 m1 hc1 slot hlk) havail
    · exact huniq p1 m1 p2 m2 hne hc1 hc2
  · intro p hp hc s hs
    by_cases hx : p.2.slot_id =
        ({ slot with status := SlotStatus.Reserved } : ParkingSlot).id
    · rw [hx, get_parking_slot_save_self] at hs
      injection hs with hs
      rw [← hs]
      simp
    · rw [get_parking_slot_save_ne _ _ _ hx,
        get_parking_slot_save_booking] at hs
      rcases KvTable.mem_insert hp with e | ⟨m, -⟩
      · exfalso
        apply hx
        rw [e]
        show b.slot_id = slot.id
        rw [hbslot, hid]
      · exact hcover p m hc s hs

/-- The coordinator invariant is preserved by a `cancel_booking` that
rewrites the booking but leaves the slots table untouched. -/
theorem coordinv_cancel_nostore {db : ServerDb} {booking : Booking}
    (hinv : CoordInv db) (now : Int) :
    CoordInv (db.save_booking
      { booking with status := BookingStatus.Cancelled, updated_at := now }) := by
  obtain ⟨⟨hwfb, hwfs⟩, hstat, huniq, hcover⟩ := hinv
  refine ⟨⟨?_, hwfs⟩, ?_, ?_, ?_⟩
  · intro p hp
    rcases KvTable.mem_insert hp with h | ⟨h, -⟩
    · rw [h]
    · exact hwfb p h
  · intro p hp
    rcases KvTable.mem_insert hp with h | ⟨h, -⟩
    · right
      rw [h]
    · exact hstat p h
  · intro p1 h1 p2 h2 hne hc1 hc2
    rcases KvTable.mem_insert h1 with e1 | ⟨m1, -⟩
    · rw [e1] at hc1
      simp at hc1
    · rcases KvTable.mem_insert h2 with e2 | ⟨m2, -⟩
      · rw [e2] at hc2
        simp at hc2
      · exact huniq p1 m1 p2 m2 hne hc1 hc2
  · intro p hp hc s hs
    rcases KvTable.mem_insert hp with e | ⟨m, -⟩
    · rw [e] at hc
      simp at hc
    · rw [get_parking_slot_save_booking] at hs
      exact hcover p m hc s hs

/-- The coordinator invariant is preserved by a `cancel_booking` that
also restores the Reserved slot to Available: by uniqueness the cancelled
booking was the only Confirmed one on that slot. -/
theorem coordinv_cancel_restore {db : ServerDb} {id : String}
    {booking : Booking} {slot : ParkingSlot} (now : Int) (hinv : CoordInv db)
    (hb : db.get_booking id = some booking)
    (hcan : booking.status ≠ BookingStatus.Cancelled)
    (hs : db.get_parking_slot booking.slot_id = some slot) :
    CoordInv ((db.save_booking
      { booking with status := BookingStatus.Cancelled, updated_at := now
        }).save_parking_slot { slot with status := SlotStatus.Available }) := by
  obtain ⟨⟨hwfb, hwfs⟩, hstat, huniq, hcover⟩ := hinv
  have hbid : booking.id = id := hwfb _ (KvTable.find?_mem hb)
  have hbconf : booking.status = BookingStatus.Confirmed := by
    rcases hstat _ (KvTable.find?_mem hb) with h | h
    · exact h
    · exact absurd h hcan
  have hsid : slot.id = booking.slot_id := hwfs _ (KvTable.find?_mem hs)
  refine ⟨⟨?_, ?_⟩, ?_, ?_, ?_⟩
  · intro p hp
    rcases KvTable.mem_insert hp with h | ⟨h, -⟩
    · rw [h]
    · exact hwfb p h
  · intro p hp
    rcases KvTable.mem_insert hp with h | ⟨h, -⟩
    · rw [h]
    · exact hwfs p h
  · intro p hp
    rcases KvTable.mem_insert hp with h | ⟨h, -⟩
    · right
      rw [h]
    · exact hstat p h
  · intro p1 h1 p2 h2 hne hc1 hc2
    rcases KvTable.mem_insert h1 with e1 | ⟨m1, -⟩
    · rw [e1] at hc1
      simp at hc1
    · rcases KvTable.mem_insert h2 with e2 | ⟨m2, -⟩
      · rw [e2] at hc2
        simp at hc2
      · exact huniq p1 m1 p2 m2 hne hc1 hc2
  · intro p hp hc s' hs'
    rcases KvTable.mem_insert hp with e | ⟨m, hk⟩
    · rw [e] at hc
      simp at hc
    · by_cases hx : p.2.slot_id =
          ({ slot with status := SlotStatus.Available } : ParkingSlot).id
      · exfalso
        have hkb : p.1 ≠ id := fun hpk => hk (hpk.trans (by rw [← hbid]))
        have hpslot : p.2.slot_id = booking.slot_id := hx.trans hsid
        exact (huniq p m (id, booking) (KvTable.find?_mem hb) hkb hc hbconf)
          hpslot
      · rw [get_parking_slot_save_ne _ _ _ hx,
          get_parking_slot_save_booking] at hs'
        exact hcover p m hc s' hs'

/-- The operation `create_booking` preserves the coordinator invariant. -/
theorem coordinv_create (db : ServerDb) (uid : String)
    (req : CreateBookingRequest) (now : Int) (bid qr : String)
    (hinv : CoordInv db) :
    CoordInv (create_booking db uid req now bid qr).2 := by
  rcases create_booking_state_cases db uid req now bid qr with
    h | ⟨slot, b, h1, h2, h3, h4, h5⟩
  · rw [h]
    exact hinv
  · rw [h5]
    exact coordinv_create_success hinv h1 h2 h3 h4

/-- The operation `cancel_booking` preserves the coordinator invariant. -/
theorem coordinv_cancel (db : ServerDb) (uid id : String) (now : Int)
    (hinv : CoordInv db) :
    CoordInv (cancel_booking db uid id now).2 := by
  rcases cancel_booking_state_cases db uid id now with
    h | ⟨booking, hb, hown, hcan, hcase⟩
  · rw [h]
    exact hinv
  · rcases hcase with h | ⟨slot, hs, hres, h⟩
    · rw [h]
      exact coordinv_cancel_nostore hinv now
    · rw [h]
      exact coordinv_cancel_restore now hinv hb hcan hs

/-- One coordinator step preserves the invariant. -/
theorem coordinv_step {db db' : ServerDb} (h : Step db db')
    (hinv : CoordInv db) : CoordInv db' := by
  cases h with
  | create uid req now bid qr => exact coordinv_create db uid req now bid qr hinv
  | cancel uid id now => exact coordinv_cancel db uid id now hinv

/-- The invariant holds in every reachable state. -/
theorem coordinv_reachable {db db' : ServerDb} (hr : Reachable db db')
    (hinv : CoordInv db) : CoordInv db' := by
  induction hr with
  | refl => exact hinv
  | tail _ hstep ih => exact coordinv_step hstep ih

/-- The serialized double-booking race: under the coordinator write lock
the two calls run in sequence in either order; the first to enter sees
the slot Available and succeeds, the second sees it Reserved and fails
with 409 SLOT_UNAVAILABLE. -/
theorem create_booking_race (db : ServerDb) (uid1 uid2 : String)
    (req1 req2 : CreateBookingRequest) (now1 now2 : Int)
    (bid1 qr1 bid2 qr2 : String) (slot : ParkingSlot)
    (hslot : db.get_parking_slot req1.slot_id = some slot)
    (hid : slot.id = req1.slot_id)
    (havail : slot.status = SlotStatus.Available)
    (hveh : ∀ v, db.get_vehicle req1.vehicle_id = some v → v.user_id = uid1)
    (hdur : 1 ≤ req1.duration_minutes) (hstart : now1 < req1.start_time)
    (hsame : req2.slot_id = req1.slot_id) :
    (∃ b, (create_booking db uid1 req1 now1 bid1 qr1).1 = .created b ∧
      b.status = BookingStatus.Confirmed) ∧
    (create_booking (create_booking db uid1 req1 now1 bid1 qr1).2 uid2 req2
      now2 bid2 qr2).1 = .err 409 "SLOT_UNAVAILABLE" := by
  obtain ⟨veh, hred⟩ :=
    create_booking_reduces db uid1 req1 now1 bid1 qr1 slot hslot havail hveh
  obtain ⟨b, hgo, hconf, -, -, -, -, -, -, -⟩ :=
    create_booking_go_success db uid1 req1 now1 bid1 qr1 slot veh hdur hstart
  refine ⟨⟨b, by rw [hred, hgo], hconf⟩, ?_⟩
  have hdb2 : (create_booking db uid1 req1 now1 bid1 qr1).2 =
      (db.save_booking b).save_parking_slot
        { slot with status := SlotStatus.Reserved } := by
    rw [hred, hgo]
  have hlook : ((db.save_booking b).save_parking_slot
      { slot with status := SlotStatus.Reserved }).get_parking_slot
      req2.slot_id = some { slot with status := SlotStatus.Reserved } := by
    rw [hsame,
      show req1.slot_id =
        ({ slot with status := SlotStatus.Reserved } : ParkingSlot).id
        from hid.symm]
    exact get_parking_slot_save_self _ _
  rw [hdb2]
  simp [create_booking, hlook]

/-- C1 as stated is false on the code: from a state satisfying the spec's
§3 cross-entity invariants (one Confirmed booking covering the Reserved
slot, plus an old Completed booking on the same slot), two coordinator
steps reach overlap — cancelling the Completed booking restores the slot
to Available while the Confirmed booking still covers it, and a second
create-booking then accepts a time-overlapping booking on that slot. -/
theorem C1_counterexample :
    SpecConsistent exC1Db0 ∧ Reachable exC1Db0 exC1Db2 ∧
    ¬ NoActiveOverlap exC1Db2 := by
  refine ⟨by decide, ?_, by decide⟩
  have h1 : Step exC1Db0 exC1Db1 := Step.cancel exC1Db0 "u1" "b2" 60
  have h2 : Step exC1Db1 exC1Db2 := Step.create exC1Db1 "u1" exC1Req 60 "b3" "q3"
  exact Relation.ReflTransGen.head h1 (Relation.ReflTransGen.single h2)

/-- C1 amended: (1) with "consistent" strengthened to the inductive
coordinator invariant (keys well-formed, every booking Confirmed or
Cancelled, at most one Confirmed booking per slot, the slot of a
Confirmed booking never Available), every state reachable by
create-booking and cancel-booking keeps the no-active-overlap invariant;
(2) of two create-booking calls on the same slot whose status is
Available at first entry, with the first request passing its other
validations, the first returns 201 with a Confirmed booking and the
second fails with 409 SLOT_UNAVAILABLE. -/
theorem C1_amended_invariant_and_race :
    (∀ db0 db : ServerDb, CoordInv db0 → Reachable db0 db →
      NoActiveOverlap db) ∧
    (∀ (db : ServerDb) (uid1 uid2 : String)
      (req1 req2 : CreateBookingRequest) (now1 now2 : Int)
      (bid1 qr1 bid2 qr2 : String) (slot : ParkingSlot),
      db.get_parking_slot req1.slot_id = some slot →
      slot.id = req1.slot_id →
      slot.status = SlotStatus.Available →
      (∀ v, db.get_vehicle req1.vehicle_id = some v → v.user_id = uid1) →
      1 ≤ req1.duration_minutes → now1 < req1.start_time →
      req2.slot_id = req1.slot_id →
      (∃ b, (create_booking db uid1 req1 now1 bid1 qr1).1 = .created b ∧
        b.status = BookingStatus.Confirmed) ∧
      (create_booking (create_booking db uid1 req1 now1 bid1 qr1).2 uid2 req2
        now2 bid2 qr2).1 = .err 409 "SLOT_UNAVAILABLE") :=
  ⟨fun _ _ hinv hr => coordinv_no_overlap (coordinv_reachable hr hinv),
   fun db uid1 uid2 req1 req2 now1 now2 bid1 qr1 bid2 qr2 slot h1 h2 h3 h4
       h5 h6 h7 =>
     create_booking_race db uid1 uid2 req1 req2 now1 now2 bid1 qr1 bid2 qr2
       slot h1 h2 h3 h4 h5 h6 h7⟩

/-- Witness for the amended C1: the invariant conclusion on a concrete
coordinator-invariant state, and the race outcome on a concrete Available
slot. -/
theorem C1_amended_invariant_and_race_witness :
    NoActiveOverlap exDbBooked ∧
    ((∃ b, (create_booking exDb "u1" exReq 0 "b1" "q1").1 = .created b ∧
        b.status = BookingStatus.Confirmed) ∧
      (create_booking (create_booking exDb "u1" exReq 0 "b1" "q1").2 "u2"
        exReq 5 "b2" "q2").1 = .err 409 "SLOT_UNAVAILABLE") :=
  ⟨C1_amended_invariant_and_race.1 exDbBooked exDbBooked (by decide)
      Relation.ReflTransGen.refl,
   C1_amended_invariant_and_race.2 exDb "u1" "u2" exReq exReq 0 5 "b1" "q1"
      "b2" "q2" exSlot rfl rfl rfl (fun _ h => nomatch h) (by decide)
      (by decide) rfl⟩

end ParkHub
